import Mathlib

/-!
# Verification of the Simple-Segmentation-Toolkit

Shallow embedding, in Lean 4, of the parts of the repository
(src/labeling_app.py, src/mask_generator_json_to_mask.py,
src/json_generator_mask_to_json.py) that the specification talks about,
together with theorems settling the specification's claims.

Conventions of the embedding:
* Python floats are modelled as exact rationals (`ℚ`); every numeric literal
  of the source (`1e-9`, `0.02`, …) is carried over verbatim as a rational.
* Python `None` becomes `Option.none`; fallible functions return `Option`.
* Mutable object state becomes explicit state passing on a structure.
* External primitives (tkinter, cv2 drawing with thickness, contour
  extraction) that the claims do not inspect pixel-by-pixel are taken as
  parameters of the embedding, so every theorem about them holds for any
  behaviour of the primitive.
-/

namespace SegToolkit

/-- View-related state of `LabelingApp` (src/labeling_app.py).
`originalImage = some (w, h)` models `self.original_pil_image` being loaded
with size `(w, h)`; `lastCropBox` models `self.last_crop_box_original_coords`
(`x1, y1, x2, y2` of the crop in original-image coordinates); `canvasW`/
`canvasH` model `self.canvas.winfo_width()`/`winfo_height()`. -/
structure AppView where
  originalImage : Option (ℚ × ℚ)
  baseScale : ℚ
  zoomLevel : ℚ
  effectiveScale : ℚ
  viewOffsetX : ℚ
  viewOffsetY : ℚ
  lastCropBox : Option (ℚ × ℚ × ℚ × ℚ)
  canvasW : ℚ
  canvasH : ℚ
  isPanning : Bool
  panStartXRoot : ℚ
  panStartYRoot : ℚ
  panInitOffsetX : ℚ
  panInitOffsetY : ℚ
deriving DecidableEq

/-- `MIN_ZOOM_LEVEL = 0.02` (src/labeling_app.py line 12). -/
def MIN_ZOOM_LEVEL : ℚ := 0.02

/-- `MAX_ZOOM_LEVEL = 100.0` (src/labeling_app.py line 13). -/
def MAX_ZOOM_LEVEL : ℚ := 100.0

/-- `LabelingApp.view_to_original_coords` (src/labeling_app.py lines
511-521), mapping a canvas point to original-image coordinates through the
crop box shared with `refresh_display`. -/
def view_to_original_coords (s : AppView) (canvas_x canvas_y : ℚ) : ℚ × ℚ :=
  match s.originalImage, s.lastCropBox with
  | some _, some (crop_ox1, crop_oy1, crop_ox2, crop_oy2) =>
    if |s.effectiveScale| < 1e-9 then
      ((canvas_x - s.viewOffsetX) / (1e-9 : ℚ), (canvas_y - s.viewOffsetY) / (1e-9 : ℚ))
    else
      let cropped_width_orig := crop_ox2 - crop_ox1
      let cropped_height_orig := crop_oy2 - crop_oy1
      if s.canvasW ≤ 0 ∨ s.canvasH ≤ 0 ∨ cropped_width_orig ≤ 0 ∨ cropped_height_orig ≤ 0 then
        ((canvas_x - s.viewOffsetX) / s.effectiveScale,
         (canvas_y - s.viewOffsetY) / s.effectiveScale)
      else
        (crop_ox1 + (canvas_x / s.canvasW) * cropped_width_orig,
         crop_oy1 + (canvas_y / s.canvasH) * cropped_height_orig)
  | _, _ => (canvas_x, canvas_y)

/-- `LabelingApp.original_to_view_coords` (src/labeling_app.py lines
523-536): maps an original-image point back to canvas coordinates, returning
`none` when the view is unusable or the point lies outside the crop box
(beyond the `1e-9` tolerance). -/
def original_to_view_coords (s : AppView) (original_x original_y : ℚ) : Option (ℚ × ℚ) :=
  match s.originalImage, s.lastCropBox with
  | some _, some (crop_ox1, crop_oy1, crop_ox2, crop_oy2) =>
    if |s.effectiveScale| < 1e-9 then none
    else
      let cropped_width_orig := crop_ox2 - crop_ox1
      let cropped_height_orig := crop_oy2 - crop_oy1
      if cropped_width_orig ≤ 0 ∨ cropped_height_orig ≤ 0 ∨ s.canvasW ≤ 0 ∨ s.canvasH ≤ 0 then
        none
      else
        if crop_ox1 - 1e-9 ≤ original_x ∧ original_x ≤ crop_ox2 + 1e-9 ∧
           crop_oy1 - 1e-9 ≤ original_y ∧ original_y ≤ crop_oy2 + 1e-9 then
          let relative_x_in_crop := original_x - crop_ox1
          let relative_y_in_crop := original_y - crop_oy1
          let prop_x := if cropped_width_orig > 0 then relative_x_in_crop / cropped_width_orig else 0
          let prop_y := if cropped_height_orig > 0 then relative_y_in_crop / cropped_height_orig else 0
          some (prop_x * s.canvasW, prop_y * s.canvasH)
        else none
  | _, _ => none

/-- `LabelingApp.on_pan_drag` (src/labeling_app.py lines 446-463): adds the
root-coordinate delta of the drag to the offsets captured at pan start, then
clamps each axis into the interval spanned by `0` and
`canvas − full effective image extent`. -/
def on_pan_drag (s : AppView) (event_x_root event_y_root : ℚ) : AppView :=
  if ¬ s.isPanning then s
  else
    match s.originalImage with
    | none => s
    | some (imgW, imgH) =>
      let current_effective_scale_for_pan := s.baseScale * s.zoomLevel
      if |current_effective_scale_for_pan| < 1e-9 then s
      else
        let delta_x := event_x_root - s.panStartXRoot
        let delta_y := event_y_root - s.panStartYRoot
        let new_view_offset_x := s.panInitOffsetX + delta_x
        let new_view_offset_y := s.panInitOffsetY + delta_y
        if s.canvasW ≤ 0 ∨ s.canvasH ≤ 0 then s
        else
          let full_eff_img_width := imgW * current_effective_scale_for_pan
          let full_eff_img_height := imgH * current_effective_scale_for_pan
          let limit2_x := s.canvasW - full_eff_img_width
          let limit2_y := s.canvasH - full_eff_img_height
          { s with
            viewOffsetX := max (min 0 limit2_x) (min (max 0 limit2_x) new_view_offset_x),
            viewOffsetY := max (min 0 limit2_y) (min (max 0 limit2_y) new_view_offset_y) }

/-- `LabelingApp.adjust_zoom` (src/labeling_app.py lines 403-423). The
pivot arguments model `canvas_x_root`/`canvas_y_root` (defaulting to the
canvas centre); `canvas.canvasx`/`canvasy` are the identity because the
canvas has no scroll region. Note that `self.zoom_level` is reassigned
*before* the `< 1e-5` early return is taken. -/
def adjust_zoom (s : AppView) (factor : ℚ) (canvas_x_root canvas_y_root : Option ℚ) : AppView :=
  match s.originalImage with
  | none => s
  | some _ =>
    if |s.baseScale| < 1e-9 then s
    else
      let current_effective_scale := s.baseScale * s.zoomLevel
      if |current_effective_scale| < 1e-9 then s
      else if s.canvasW ≤ 1 ∨ s.canvasH ≤ 1 then s
      else
        let canvas_center_x := canvas_x_root.getD (s.canvasW / 2)
        let canvas_center_y := canvas_y_root.getD (s.canvasH / 2)
        let orig_x_at_zoom_center := (canvas_center_x - s.viewOffsetX) / current_effective_scale
        let orig_y_at_zoom_center := (canvas_center_y - s.viewOffsetY) / current_effective_scale
        let old_zoom_level := s.zoomLevel
        let new_zoom_level := max MIN_ZOOM_LEVEL (min (s.zoomLevel * factor) MAX_ZOOM_LEVEL)
        if |new_zoom_level - old_zoom_level| < 1e-5 then { s with zoomLevel := new_zoom_level }
        else
          let new_effective_scale := s.baseScale * new_zoom_level
          { s with
            zoomLevel := new_zoom_level,
            effectiveScale := new_effective_scale,
            viewOffsetX := canvas_center_x - orig_x_at_zoom_center * new_effective_scale,
            viewOffsetY := canvas_center_y - orig_y_at_zoom_center * new_effective_scale }

/-! ## Annotation store and `save_annotations` (src/labeling_app.py) -/

/-- One element of a Python `coordinates_original` list as produced by
`json.load`/the labeling app: either a bare number or an `[x, y]` pair
(freehand points are pairs, rectangle/line coordinates are bare numbers).
Python `len` on the list counts these items. -/
inductive CoordItem where
  | num (q : ℚ)
  | pt (x y : ℚ)
deriving DecidableEq

/-- One entry of an image's `"annotations"` list as the labeling app stores
it: `{"label": …, "type": …, "coordinates_original": …}`. -/
structure StoredAnn where
  label : String
  type : String
  coords : List CoordItem
deriving DecidableEq

/-- The per-image value of `self.annotations`:
`{"annotations": [...], "original_size": (w, h)}`. -/
structure ImageData where
  anns : List StoredAnn
  originalSize : ℚ × ℚ
deriving DecidableEq

/-- The in-memory store `self.annotations`, modelled as an insertion-ordered
association list keyed by image basename (a Python dict). -/
abbrev Store := List (String × ImageData)

/-- Python dict lookup `self.annotations.get(img_name)`. -/
def storeLookup (store : Store) (k : String) : Option ImageData :=
  List.lookup k store

/-- Python dict assignment `self.annotations[k] = v`: replaces in place when
the key exists, otherwise appends at the end (insertion order). -/
def storeSet : Store → String → ImageData → Store
  | [], k, v => [(k, v)]
  | (k', v') :: rest, k, v =>
    if k' = k then (k, v) :: rest else (k', v') :: storeSet rest k v

/-- The stem of `os.path.splitext(basename)`: everything before the last
dot, unless every character before that dot is itself a dot (then the whole
name, as for `".bashrc"`). Used in `save_annotations` to derive the record
file name `stem + ".json"`. -/
def splitextStem (name : String) : String :=
  let cs := name.data
  match (cs.reverse.findIdx? (fun c => c = '.')) with
  | none => name
  | some i =>
    let d := cs.length - 1 - i
    if (cs.take d).any (fun c => c ≠ '.') then String.mk (cs.take d) else name

/-- The record-file directory `json_data/`, modelled as a map from the
record stem (`splitextStem img_basename`, to which `".json"` is appended
uniformly) to the stored contents. -/
abbrev RecordFS := String → Option ImageData

/-- Writing `stem.json` (the `json.dump` branch of `save_annotations`). -/
def fsWrite (fs : RecordFS) (k : String) (v : ImageData) : RecordFS :=
  fun x => if x = k then some v else fs x

/-- `os.remove` of `stem.json`; a no-op when absent (the code guards with
`os.path.exists`, which yields the same resulting file system). -/
def fsRemove (fs : RecordFS) (k : String) : RecordFS :=
  fun x => if x = k then none else fs x

/-- One iteration of the `save_annotations` loop (src/labeling_app.py lines
303-318) on accumulator (file system, error count). `fails img = true`
models the `except` branch: the write/delete raised, the file system is
untouched and `error_count` is incremented. -/
def save_step (fails : String → Bool) (acc : RecordFS × ℕ) (entry : String × ImageData) :
    RecordFS × ℕ :=
  let save_key := splitextStem entry.1
  if fails entry.1 then (acc.1, acc.2 + 1)
  else if entry.2.anns = [] then (fsRemove acc.1 save_key, acc.2)
  else (fsWrite acc.1 save_key entry.2, acc.2)

/-- Result of `save_annotations`: the record files, the
`has_unsaved_changes` flag, and the per-image error count. -/
structure SaveResult where
  fs : RecordFS
  dirty : Bool
  errors : ℕ

/-- `LabelingApp.save_annotations` (src/labeling_app.py lines 282-336).
`images_open` models `self.image_files` being non-empty; `mkdir_ok` models
`os.makedirs` succeeding. On the three early returns nothing changes; after
the loop `self.has_unsaved_changes = False` is executed unconditionally,
whatever `error_count` is. -/
def save_anns (images_open mkdir_ok : Bool) (fails : String → Bool)
    (store : Store) (fs0 : RecordFS) (dirty : Bool) : SaveResult :=
  if ¬ images_open then ⟨fs0, dirty, 0⟩
  else if store = [] then ⟨fs0, dirty, 0⟩
  else if ¬ mkdir_ok then ⟨fs0, dirty, 0⟩
  else
    let r := store.foldl (save_step fails) (fs0, 0)
    ⟨r.1, false, r.2⟩

/-- The annotation actually appended for a rectangle gesture:
`{"label": label, "type": "rectangle", "coordinates_original":
[min x, min y, max x, max y]}` (src/labeling_app.py lines 581-585). -/
def rectAnn (label : String) (x1 y1 x2 y2 : ℚ) : StoredAnn :=
  ⟨label, "rectangle",
   [CoordItem.num (min x1 x2), CoordItem.num (min y1 y2),
    CoordItem.num (max x1 x2), CoordItem.num (max y1 y2)]⟩

/-- `LabelingApp.on_mouse_release` (src/labeling_app.py lines 571-606),
specialised to the rectangle tool with a drag in progress and no panning
(the other guards return before touching the store). Inputs are the canvas
start point captured at press and the canvas release point; `img_name` is
the current image basename, `orig_size` its size, `label` the current class.
Returns the new store and the new `has_unsaved_changes` flag. -/
def on_mouse_release_rect (s : AppView) (store : Store) (dirty : Bool)
    (img_name label : String) (orig_size : ℚ × ℚ)
    (start_x_canvas start_y_canvas end_x_canvas end_y_canvas : ℚ) : Store × Bool :=
  if label = "" then (store, dirty)
  else
    let o1 := view_to_original_coords s start_x_canvas start_y_canvas
    let o2 := view_to_original_coords s end_x_canvas end_y_canvas
    if 1 ≤ |o1.1 - o2.1| ∧ 1 ≤ |o1.2 - o2.2| then
      let d0 := match storeLookup store img_name with
                | none => ImageData.mk [] orig_size
                | some d => d
      (storeSet store img_name ⟨d0.anns ++ [rectAnn label o1.1 o1.2 o2.1 o2.2], d0.originalSize⟩,
       true)
    else (store, dirty)

/-- `LabelingApp.delete_annotation` (src/labeling_app.py lines 745-756):
with a valid index and a confirmed dialog, removes the entry and marks the
store dirty; otherwise changes nothing. -/
def delete_ann (store : Store) (dirty : Bool) (img_name : String) (idx : ℕ) (confirm : Bool) :
    Store × Bool :=
  match storeLookup store img_name with
  | none => (store, dirty)
  | some d =>
    if idx < d.anns.length then
      if confirm then (storeSet store img_name ⟨d.anns.eraseIdx idx, d.originalSize⟩, true)
      else (store, dirty)
    else (store, dirty)

/-- `LabelingApp.clear_current_annotations` (src/labeling_app.py lines
706-716): on confirmation, empties (or creates empty) the current image's
entry and marks the store dirty. -/
def clear_current_anns (store : Store) (dirty : Bool) (img_name : String)
    (orig_size : ℚ × ℚ) (confirm : Bool) : Store × Bool :=
  if confirm then
    match storeLookup store img_name with
    | none => (storeSet store img_name ⟨[], orig_size⟩, true)
    | some d => (storeSet store img_name ⟨[], d.originalSize⟩, true)
  else (store, dirty)

/-! ## Mask generation (src/mask_generator_json_to_mask.py) -/

/-- A raster: the class id stored at pixel column `x`, row `y`. -/
def Mask := ℕ → ℕ → ℕ

/-- Python 3 `round`: round half to even (banker's rounding), as applied to
each coordinate before drawing. -/
def pyRound (q : ℚ) : ℤ :=
  let f := ⌊q⌋
  let r := q - f
  if r < 1/2 then f
  else if 1/2 < r then f + 1
  else if f % 2 = 0 then f else f + 1

/-- `cv2.rectangle(mask, pt1, pt2, color, thickness=cv2.FILLED)`: fills the
axis-aligned rectangle spanned by the two corners, both corners included
(OpenCV's filled rectangle is inclusive of `pt2`); pixels outside the image
are clipped away, which the total-function representation makes implicit. -/
def drawRect (m : Mask) (pt1 pt2 : ℤ × ℤ) (color : ℕ) : Mask :=
  fun x y =>
    if min pt1.1 pt2.1 ≤ (x : ℤ) ∧ (x : ℤ) ≤ max pt1.1 pt2.1 ∧
       min pt1.2 pt2.2 ≤ (y : ℤ) ∧ (y : ℤ) ≤ max pt1.2 pt2.2 then color else m x y

/-- One annotation object of a loaded JSON file: the `label`, `type` and
`coordinates_original` fields, each possibly missing. -/
structure MgAnn where
  label : Option String
  type : Option String
  coords : Option (List CoordItem)
deriving DecidableEq

/-- A loaded annotation JSON file: `original_size` (already as the integer
pair the code converts it to, possibly missing) and the `annotations` list. -/
structure MgData where
  originalSize : Option (ℤ × ℤ)
  anns : List MgAnn
deriving DecidableEq

/-- Python truthiness of an optional string (`not label` is true for both
a missing and an empty label). -/
def truthyStr : Option String → Bool
  | none => false
  | some s => s != ""

/-- The `if not all([label, ann_type, coords_original is not None])` check
of src/mask_generator_json_to_mask.py line 86. -/
def annIncomplete (a : MgAnn) : Bool :=
  !(truthyStr a.label && truthyStr a.type && a.coords.isSome)

/-- Extracts four scalar coordinates. `none` models the `TypeError` that
`round` raises on a nested `[x, y]` pair, which the surrounding
`try/except` turns into a skip. -/
def asNum4 : List CoordItem → Option (ℚ × ℚ × ℚ × ℚ)
  | [CoordItem.num a, CoordItem.num b, CoordItem.num c, CoordItem.num d] => some (a, b, c, d)
  | _ => none

/-- The body of the `for ann in img_info["annotations"]` loop of
`create_mask_from_annotations` (src/mask_generator_json_to_mask.py lines
81-118), acting on the mask drawn so far. `lineDraw` and `polyDraw` are the
external primitives `cv2.line` and `cv2.polylines` (mask, endpoints/points,
color, thickness); every theorem below holds for arbitrary behaviour of
these primitives. All skip branches (incomplete annotation, unknown label,
wrong coordinate count, unknown type, drawing exception) leave the mask
unchanged. -/
def ann_step (lineDraw : Mask → ℤ × ℤ → ℤ × ℤ → ℕ → ℕ → Mask)
    (polyDraw : Mask → List CoordItem → ℕ → ℕ → Mask)
    (table : List (String × ℕ)) (line_thickness : ℕ)
    (m : Mask) (a : MgAnn) : Mask :=
  if annIncomplete a then m
  else
    match List.lookup (a.label.getD "") table with
    | none => m
    | some class_id =>
      let coords := a.coords.getD []
      match a.type.getD "" with
      | "rectangle" =>
        if coords.length = 4 then
          match asNum4 coords with
          | some (c1, c2, c3, c4) =>
            let x1 := pyRound c1
            let y1 := pyRound c2
            let x2 := pyRound c3
            let y2 := pyRound c4
            drawRect m (min x1 x2, min y1 y2) (max x1 x2, max y1 y2) class_id
          | none => m
        else m
      | "line" =>
        if coords.length = 4 then
          match asNum4 coords with
          | some (c1, c2, c3, c4) =>
            lineDraw m (pyRound c1, pyRound c2) (pyRound c3, pyRound c4) class_id line_thickness
          | none => m
        else m
      | "freehand" =>
        if 2 ≤ coords.length then polyDraw m coords class_id line_thickness else m
      | _ => m

/-- `create_mask_from_annotations` (src/mask_generator_json_to_mask.py
lines 25-120), with `image_dir=None` fixed, so a missing `original_size`
is the `return None, None` branch. Returns the drawn mask and `(w, h)`. -/
def create_mask_from_anns (lineDraw : Mask → ℤ × ℤ → ℤ × ℤ → ℕ → ℕ → Mask)
    (polyDraw : Mask → List CoordItem → ℕ → ℕ → Mask)
    (data : MgData) (class_to_id_mapping : List (String × ℕ)) (line_thickness : ℕ) :
    Option (Mask × (ℤ × ℤ)) :=
  match data.originalSize with
  | none => none
  | some (w, h) =>
    if w ≤ 0 ∨ h ≤ 0 then none
    else
      let mask0 : Mask := fun _ _ => 0
      if data.anns = [] then some (mask0, (w, h))
      else
        some (data.anns.foldl (ann_step lineDraw polyDraw class_to_id_mapping line_thickness)
                mask0, (w, h))

/-- The exact conditions under which the loop body of
`create_mask_from_annotations` skips an annotation without touching the
mask: incomplete fields, label not in the class table, a coordinate count
inconsistent with the declared type (rectangle/line need exactly 4 scalars,
freehand at least 2 points), or an unknown type. -/
def ann_skipped (table : List (String × ℕ)) (a : MgAnn) : Bool :=
  annIncomplete a ||
  (List.lookup (a.label.getD "") table).isNone ||
  (match a.type.getD "" with
   | "rectangle" => (a.coords.getD []).length != 4 || (asNum4 (a.coords.getD [])).isNone
   | "line" => (a.coords.getD []).length != 4 || (asNum4 (a.coords.getD [])).isNone
   | "freehand" => (a.coords.getD []).length < 2
   | _ => true)

/-- `CLASS_MAPPING` (src/mask_generator_json_to_mask.py lines 11-21). -/
def CLASS_MAPPING : List (String × ℕ) :=
  [("background", 0), ("lines", 1), ("object", 2), ("person", 3),
   ("vehicle", 4), ("animal", 5), ("marker", 6), ("path", 7)]

/-- `num_classes = len(CLASS_MAPPING) - 1` (line 315): the non-background
classes. -/
def num_classes : ℕ := CLASS_MAPPING.length - 1

/-- `int(class_id * scale_factor)` with `scale_factor = 255 / num_classes`
(lines 316-320). The source computes this in binary floating point and
truncates with `int`; for every id `0 ≤ k ≤ 7` occurring in `CLASS_MAPPING`
the float truncation coincides with the exact rational floor modelled here
(`int(k * (255/7)) = ⌊k·255/7⌋` for `k = 0,…,7`). -/
def visual_value (class_id : ℕ) : ℕ := class_id * 255 / num_classes

/-- The visibility rescale loop of `start_mask_generation`
(src/mask_generator_json_to_mask.py lines 314-320): starting from a zero
raster, for each non-background class id the pixels of that id receive the
rescaled intensity. -/
def visual_mask (raw : Mask) : Mask :=
  CLASS_MAPPING.foldl
    (fun v e =>
      if e.2 ≠ 0 then (fun x y => if raw x y = e.2 then visual_value e.2 else v x y) else v)
    (fun _ _ => 0)

/-! ## Mask-to-JSON conversion (src/json_generator_mask_to_json.py) -/

/-- `cv2.contourArea(contour)`: the absolute shoelace (Green's theorem)
area of the polygon through the contour points; `0` for fewer than three
points. -/
def contourArea (c : List (ℤ × ℤ)) : ℚ :=
  (|(c.zip (c.rotate 1)).foldl (fun s pq => s + (pq.1.1 * pq.2.2 - pq.2.1 * pq.1.2)) 0| : ℤ) / 2

/-- `contour.squeeze().tolist()` followed by the
`if not isinstance(coordinates[0], list): coordinates = [coordinates]`
normalization (src/json_generator_mask_to_json.py lines 46-50): a one-point
contour squeezes to a flat pair and is re-wrapped, longer contours are
already lists of pairs. -/
def normalizeCoords (c : List (ℤ × ℤ)) : List (List ℤ) :=
  match c with
  | [(x, y)] => [[x, y]]
  | _ => c.map (fun p => [p.1, p.2])

/-- One output annotation of the converter. -/
structure JsonAnn where
  label : String
  type : String
  coords : List (List ℤ)
deriving DecidableEq

/-- The dictionary returned by `convert_mask_to_json_data`. -/
structure JsonData where
  anns : List JsonAnn
  originalSize : ℤ × ℤ
deriving DecidableEq

/-- `convert_mask_to_json_data` (src/json_generator_mask_to_json.py lines
8-59). `findContoursAt pv` is the external primitive pipeline
`cv2.findContours(cv2.inRange(mask, pv, pv), RETR_EXTERNAL,
CHAIN_APPROX_SIMPLE)` on the mask; the loop skips every contour of
`cv2.contourArea` below 4 and emits the rest as `"freehand"`. -/
def convert_mask_to_json_data (width height : ℤ)
    (findContoursAt : ℕ → List (List (ℤ × ℤ))) (class_mapping : List (ℕ × String)) :
    JsonData :=
  { anns :=
      class_mapping.foldl
        (fun acc e =>
          acc ++ ((findContoursAt e.1).filter (fun c => decide (¬ contourArea c < 4))).map
            (fun c => JsonAnn.mk e.2 "freehand" (normalizeCoords c)))
        [],
    originalSize := (width, height) }

/-! ## Theorems -/

/-- The exact input of the C1 scenario: one `"lines"` rectangle whose
`coordinates_original` is the two-corner nested form `[[10,10],[50,50]]`,
`original_size = [100,100]`. -/
def c1_data : MgData :=
  ⟨some (100, 100),
   [⟨some "lines", some "rectangle", some [CoordItem.pt 10 10, CoordItem.pt 50 50]⟩]⟩

/-- The C1 class table mapping `"lines"` to 1. -/
def c1_table : List (String × ℕ) := [("lines", 1)]

/-- C1 (amended): on the scenario input the rectangle's
`coordinates_original` has length 2, not 4, so `create_mask_from_annotations`
skips it with a warning and the returned 100×100 raster is identically 0 —
no pixel receives class 1. Holds for arbitrary line/polyline primitives
since none is ever invoked. -/
theorem c1_nested_rect_scenario_yields_zero_mask
    (lineDraw : Mask → ℤ × ℤ → ℤ × ℤ → ℕ → ℕ → Mask)
    (polyDraw : Mask → List CoordItem → ℕ → ℕ → Mask) :
    create_mask_from_anns lineDraw polyDraw c1_data c1_table 5 =
      some ((fun _ _ => 0), (100, 100)) := by
  rfl

/-- C1 counterexample: at the claim's own input, pixel `(20, 20)` — which
satisfies `10 ≤ x < 50, 10 ≤ y < 50` and should be 1 per the claim — is 0
in the generated raster. -/
theorem c1_counterexample :
    (create_mask_from_anns (fun m _ _ _ _ => m) (fun m _ _ _ => m) c1_data c1_table 5).map
      (fun r => r.1 20 20) = some 0 := by
  rfl

/-- A one-point contour has shoelace area 0. -/
theorem contourArea_single (x y : ℤ) : contourArea [(x, y)] = 0 := by
  simp [contourArea, List.rotate]

/-- Filtering with a weaker predicate first does not change a filter:
if `p a` implies `q a`, then filtering by `q` before `p` is the same as
filtering by `p` alone. -/
theorem filter_of_imp {α : Type} (p q : α → Bool) (h : ∀ a, p a = true → q a = true) :
    ∀ l : List α, (l.filter q).filter p = l.filter p := by
  intro l
  induction l with
  | nil => simp
  | cons a t ih =>
    by_cases hq : q a = true
    · simp [List.filter_cons, hq, ih]
    · have hp : p a = false := by
        cases hpa : p a
        · rfl
        · exact absurd (h a hpa) hq
      simp [List.filter_cons, hq, hp, ih]

/-- C9 (amended): a contour reduced to a single point has `cv2.contourArea`
0, which is below the noise threshold 4, so `convert_mask_to_json_data`
skips it: deleting all one-point contours from the extraction result leaves
the output unchanged — they are never emitted (and never raise a shape
error; the `[[x, y]]` normalization branch is only reachable for one-point
contours, which the area filter stops first). -/
theorem c9_single_point_contours_are_skipped (w h : ℤ)
    (extract : ℕ → List (List (ℤ × ℤ))) (mapping : List (ℕ × String)) :
    convert_mask_to_json_data w h (fun v => (extract v).filter (fun c => c.length != 1)) mapping =
      convert_mask_to_json_data w h extract mapping := by
  unfold convert_mask_to_json_data
  refine congrArg (fun a => JsonData.mk a (w, h)) ?_
  apply List.foldl_ext
  intro acc e _
  have hfil : ((extract e.1).filter (fun c => c.length != 1)).filter
      (fun c => decide (¬ contourArea c < 4)) =
      (extract e.1).filter (fun c => decide (¬ contourArea c < 4)) := by
    apply filter_of_imp
    intro c hc
    by_cases hl : c.length = 1
    · obtain ⟨pt, rfl⟩ := List.length_eq_one.mp hl
      obtain ⟨cx, cy⟩ := pt
      rw [decide_eq_true_eq] at hc
      exact absurd (by rw [contourArea_single]; norm_num) hc
    · simp [hl]
  rw [hfil]

/-- C9 counterexample: a class whose extraction yields exactly one
single-point contour `[(5,5)]` produces no annotation at all — the claim
says it should be emitted as a `"freehand"` annotation `[[5, 5]]`. -/
theorem c9_counterexample :
    (convert_mask_to_json_data 100 100 (fun _ => [[((5 : ℤ), (5 : ℤ))]]) [(255, "lines")]).anns
      = [] := by
  have h : decide (¬ contourArea [((5 : ℤ), (5 : ℤ))] < 4) = false := by
    rw [contourArea_single]
    norm_num
  simp [convert_mask_to_json_data, h]
  rw [contourArea_single]
  norm_num

/-- C7 (amended): in the human-viewable raster, a pixel of class id 0 stays
0; a pixel whose id appears in `CLASS_MAPPING` with id `k > 0` becomes
`⌊k · 255 / num_classes⌋` (the `int` truncation of the source, not
`round`); a pixel whose value is no class id becomes 0. -/
theorem c7_visual_mask_truncated_rescale (raw : Mask) (x y : ℕ) :
    visual_mask raw x y =
      if raw x y ≠ 0 ∧ raw x y ∈ CLASS_MAPPING.map Prod.snd
      then raw x y * 255 / num_classes else 0 := by
  have expand : visual_mask raw x y =
      (if raw x y = 7 then visual_value 7 else if raw x y = 6 then visual_value 6
       else if raw x y = 5 then visual_value 5 else if raw x y = 4 then visual_value 4
       else if raw x y = 3 then visual_value 3 else if raw x y = 2 then visual_value 2
       else if raw x y = 1 then visual_value 1 else 0) := rfl
  rw [expand]
  simp only [CLASS_MAPPING, num_classes, visual_value, List.map_cons, List.map_nil,
    List.mem_cons, List.not_mem_nil, or_false, List.length_cons, List.length_nil]
  split_ifs <;> omega

/-- The rescaled value the spec prescribes: `round(k × 255 /
num_non_background_classes)`. -/
def spec_rescaled_value (k : ℕ) : ℤ := round ((k * 255 : ℚ) / (num_classes : ℚ))

/-- C7 counterexample: a pixel of class id 2 receives intensity
`int(2 · 255/7) = 72` in the code, while the claim's
`round(2 · 255/7) = 73`. -/
theorem c7_counterexample :
    visual_mask (fun _ _ => 2) 0 0 = 72 ∧ spec_rescaled_value 2 = 73 := by
  refine ⟨rfl, ?_⟩
  norm_num [spec_rescaled_value, num_classes, CLASS_MAPPING, round_eq]

/-- A concrete pan scenario: a 50×50 image at effective scale 1 (so smaller
than the 100×100 canvas) being panned from the centred offset (25, 25). -/
def panDemoState : AppView :=
  { originalImage := some (50, 50), baseScale := 1, zoomLevel := 1, effectiveScale := 1,
    viewOffsetX := 25, viewOffsetY := 25, lastCropBox := none,
    canvasW := 100, canvasH := 100, isPanning := true,
    panStartXRoot := 0, panStartYRoot := 0, panInitOffsetX := 25, panInitOffsetY := 25 }

/-- C4 (amended): for every panning view state with positive canvas size
and effective scale at least the `1e-9` guard, `on_pan_drag` sets each
offset axis to the pan-start offset plus the drag delta, clamped into
`[min(0, canvas − scaled extent), max(0, canvas − scaled extent)]`, and the
result lies within those bounds. (The bounds coincide only when the scaled
extent equals the canvas; for a smaller image they are `[0, canvas−extent]`
and the offset can move within them.) -/
theorem c4_pan_adds_delta_then_clamps (s : AppView) (imgW imgH ex ey : ℚ)
    (himg : s.originalImage = some (imgW, imgH))
    (hpan : s.isPanning = true)
    (hces : ¬ |s.baseScale * s.zoomLevel| < 1e-9)
    (hcw : 0 < s.canvasW) (hch : 0 < s.canvasH) :
    (on_pan_drag s ex ey).viewOffsetX =
      max (min 0 (s.canvasW - imgW * (s.baseScale * s.zoomLevel)))
        (min (max 0 (s.canvasW - imgW * (s.baseScale * s.zoomLevel)))
          (s.panInitOffsetX + (ex - s.panStartXRoot))) ∧
    (on_pan_drag s ex ey).viewOffsetY =
      max (min 0 (s.canvasH - imgH * (s.baseScale * s.zoomLevel)))
        (min (max 0 (s.canvasH - imgH * (s.baseScale * s.zoomLevel)))
          (s.panInitOffsetY + (ey - s.panStartYRoot))) ∧
    min 0 (s.canvasW - imgW * (s.baseScale * s.zoomLevel)) ≤ (on_pan_drag s ex ey).viewOffsetX ∧
    (on_pan_drag s ex ey).viewOffsetX ≤ max 0 (s.canvasW - imgW * (s.baseScale * s.zoomLevel)) ∧
    min 0 (s.canvasH - imgH * (s.baseScale * s.zoomLevel)) ≤ (on_pan_drag s ex ey).viewOffsetY ∧
    (on_pan_drag s ex ey).viewOffsetY ≤ max 0 (s.canvasH - imgH * (s.baseScale * s.zoomLevel)) := by
  obtain ⟨oi, bs, zl, es, vx, vy, lcb, cw, ch, ip, psx, psy, pix, piy⟩ := s
  dsimp only at himg hpan hces hcw hch ⊢
  subst himg
  subst hpan
  unfold on_pan_drag
  dsimp only
  rw [if_neg (by simp), if_neg hces, if_neg (by push_neg; exact ⟨hcw, hch⟩)]
  dsimp only
  exact ⟨rfl, rfl, le_max_left _ _,
    max_le ((min_le_left _ _).trans (le_max_left _ _)) (min_le_left _ _),
    le_max_left _ _,
    max_le ((min_le_left _ _).trans (le_max_left _ _)) (min_le_left _ _)⟩

/-- Witness for C4 at `panDemoState` with a drag of (+10, 0). -/
theorem c4_witness :
    (on_pan_drag panDemoState 10 0).viewOffsetX =
      max (min 0 (panDemoState.canvasW - 50 * (panDemoState.baseScale * panDemoState.zoomLevel)))
        (min (max 0 (panDemoState.canvasW - 50 * (panDemoState.baseScale * panDemoState.zoomLevel)))
          (panDemoState.panInitOffsetX + (10 - panDemoState.panStartXRoot))) :=
  (c4_pan_adds_delta_then_clamps panDemoState 50 50 10 0 rfl rfl
    (by norm_num [panDemoState]) (by norm_num [panDemoState]) (by norm_num [panDemoState])).1

/-- C4 counterexample: in `panDemoState` the scaled image extent (50) is
smaller than the canvas (100), yet a drag of (+10, 0) moves the offset from
the centring value 25 to 35 — panning along that axis is *not* a no-op, so
the two clamp bounds do not coincide at the centring value. -/
theorem c4_counterexample :
    (50 : ℚ) * (panDemoState.baseScale * panDemoState.zoomLevel) < panDemoState.canvasW ∧
    panDemoState.panInitOffsetX = 25 ∧
    (on_pan_drag panDemoState 10 0).viewOffsetX = 35 := by
  refine ⟨by norm_num [panDemoState], rfl, ?_⟩
  norm_num [on_pan_drag, panDemoState]

/-- A concrete view state with a valid crop box: a 200×200 image, effective
scale 1, crop box `[0, 0, 100, 100]` on a 100×100 canvas. -/
def viewDemoState : AppView :=
  { originalImage := some (200, 200), baseScale := 1, zoomLevel := 1, effectiveScale := 1,
    viewOffsetX := 0, viewOffsetY := 0, lastCropBox := some (0, 0, 100, 100),
    canvasW := 100, canvasH := 100, isPanning := false,
    panStartXRoot := 0, panStartYRoot := 0, panInitOffsetX := 0, panInitOffsetY := 0 }

/-- C5 (confirmed): for a view state with a valid crop box (positive canvas
dimensions, positive crop extents, effective scale above the `1e-9` guard)
and any point inside the canvas, `original_to_view_coords` of
`view_to_original_coords` is defined and returns the point back within one
pixel on each axis (in fact exactly). -/
theorem c5_round_trip_within_one_pixel (s : AppView) (img : ℚ × ℚ) (c1 d1 c2 d2 px py : ℚ)
    (himg : s.originalImage = some img)
    (hcrop : s.lastCropBox = some (c1, d1, c2, d2))
    (heff : ¬ |s.effectiveScale| < 1e-9)
    (hcw : 0 < s.canvasW) (hch : 0 < s.canvasH)
    (hc : c1 < c2) (hd : d1 < d2)
    (hx0 : 0 ≤ px) (hx1 : px ≤ s.canvasW) (hy0 : 0 ≤ py) (hy1 : py ≤ s.canvasH) :
    ∃ q : ℚ × ℚ,
      original_to_view_coords s (view_to_original_coords s px py).1
        (view_to_original_coords s px py).2 = some q ∧
      |q.1 - px| ≤ 1 ∧ |q.2 - py| ≤ 1 := by
  obtain ⟨oi, bs, zl, es, vx, vy, lcb, cw, ch, ip, psx, psy, pix, piy⟩ := s
  dsimp only at himg hcrop heff hcw hch hx1 hy1 ⊢
  subst himg
  subst hcrop
  have heps : (0 : ℚ) < 1e-9 := by norm_num
  have hcw2 : (0 : ℚ) < c2 - c1 := by linarith
  have hch2 : (0 : ℚ) < d2 - d1 := by linarith
  have hg1 : ¬ (cw ≤ 0 ∨ ch ≤ 0 ∨ c2 - c1 ≤ 0 ∨ d2 - d1 ≤ 0) := by
    push_neg
    exact ⟨hcw, hch, hcw2, hch2⟩
  have hg2 : ¬ (c2 - c1 ≤ 0 ∨ d2 - d1 ≤ 0 ∨ cw ≤ 0 ∨ ch ≤ 0) := by
    push_neg
    exact ⟨hcw2, hch2, hcw, hch⟩
  have hpx1 : px / cw ≤ 1 := (div_le_one hcw).mpr hx1
  have hpy1 : py / ch ≤ 1 := (div_le_one hch).mpr hy1
  have hx2 : (0 : ℚ) ≤ px / cw * (c2 - c1) := mul_nonneg (div_nonneg hx0 hcw.le) hcw2.le
  have hy2 : (0 : ℚ) ≤ py / ch * (d2 - d1) := mul_nonneg (div_nonneg hy0 hch.le) hch2.le
  have hx3 : px / cw * (c2 - c1) ≤ c2 - c1 := by
    have := mul_le_mul_of_nonneg_right hpx1 hcw2.le
    linarith
  have hy3 : py / ch * (d2 - d1) ≤ d2 - d1 := by
    have := mul_le_mul_of_nonneg_right hpy1 hch2.le
    linarith
  unfold view_to_original_coords original_to_view_coords
  dsimp only
  rw [if_neg heff, if_neg hg2, if_neg heff, if_neg hg1]
  dsimp only
  have hbnd : c1 - 1e-9 ≤ c1 + px / cw * (c2 - c1) ∧
      c1 + px / cw * (c2 - c1) ≤ c2 + 1e-9 ∧
      d1 - 1e-9 ≤ d1 + py / ch * (d2 - d1) ∧
      d1 + py / ch * (d2 - d1) ≤ d2 + 1e-9 :=
    ⟨by linarith, by linarith, by linarith, by linarith⟩
  rw [if_pos hbnd, if_pos hcw2, if_pos hch2]
  refine ⟨_, rfl, ?_, ?_⟩
  · have hval : (c1 + px / cw * (c2 - c1) - c1) / (c2 - c1) * cw = px := by
      field_simp
      ring
    rw [hval]
    simp
  · have hval : (d1 + py / ch * (d2 - d1) - d1) / (d2 - d1) * ch = py := by
      field_simp
      ring
    rw [hval]
    simp

/-- Witness for C5 at `viewDemoState` and the canvas point (30, 40). -/
theorem c5_witness :
    ∃ q : ℚ × ℚ,
      original_to_view_coords viewDemoState
        (view_to_original_coords viewDemoState 30 40).1
        (view_to_original_coords viewDemoState 30 40).2 = some q ∧
      |q.1 - 30| ≤ 1 ∧ |q.2 - 40| ≤ 1 :=
  c5_round_trip_within_one_pixel viewDemoState (200, 200) 0 0 100 100 30 40 rfl rfl
    (by norm_num [viewDemoState]) (by norm_num [viewDemoState]) (by norm_num [viewDemoState])
    (by norm_num) (by norm_num) (by norm_num) (by norm_num [viewDemoState]) (by norm_num)
    (by norm_num [viewDemoState])

/-- A concrete zoom scenario at zoom level 1 on a 100×100 canvas. -/
def zoomDemoState : AppView :=
  { originalImage := some (10, 10), baseScale := 1, zoomLevel := 1, effectiveScale := 1,
    viewOffsetX := 0, viewOffsetY := 0, lastCropBox := none, canvasW := 100, canvasH := 100,
    isPanning := false, panStartXRoot := 0, panStartYRoot := 0,
    panInitOffsetX := 0, panInitOffsetY := 0 }

/-- C6 (amended): when the clamped change of zoom level is below the fixed
`1e-5` epsilon, `adjust_zoom` leaves `effective_scale`, `view_offset_x` and
`view_offset_y` unchanged but still overwrites `zoom_level` with the new
clamped value (the reassignment happens before the early return). -/
theorem c6_small_zoom_change_updates_only_zoom_level (s : AppView) (factor : ℚ)
    (pxr pyr : Option ℚ) (img : ℚ × ℚ)
    (himg : s.originalImage = some img)
    (hbase : ¬ |s.baseScale| < 1e-9)
    (hces : ¬ |s.baseScale * s.zoomLevel| < 1e-9)
    (hcanvas : ¬ (s.canvasW ≤ 1 ∨ s.canvasH ≤ 1))
    (hsmall : |max MIN_ZOOM_LEVEL (min (s.zoomLevel * factor) MAX_ZOOM_LEVEL) - s.zoomLevel|
        < 1e-5) :
    adjust_zoom s factor pxr pyr =
      { s with zoomLevel := max MIN_ZOOM_LEVEL (min (s.zoomLevel * factor) MAX_ZOOM_LEVEL) } := by
  obtain ⟨oi, bs, zl, es, vx, vy, lcb, cw, ch, ip, psx, psy, pix, piy⟩ := s
  dsimp only at himg hbase hces hcanvas hsmall ⊢
  subst himg
  unfold adjust_zoom
  dsimp only
  rw [if_neg hbase, if_neg hces, if_neg hcanvas, if_pos hsmall]

/-- Witness for C6 at `zoomDemoState` with factor `1 + 10⁻⁶`. -/
theorem c6_witness :
    adjust_zoom zoomDemoState (1 + 1/1000000) none none =
      { zoomDemoState with
        zoomLevel := max MIN_ZOOM_LEVEL
          (min (zoomDemoState.zoomLevel * (1 + 1/1000000)) MAX_ZOOM_LEVEL) } :=
  c6_small_zoom_change_updates_only_zoom_level zoomDemoState (1 + 1/1000000) none none (10, 10)
    rfl (by norm_num [zoomDemoState]) (by norm_num [zoomDemoState])
    (by norm_num [zoomDemoState])
    (by norm_num [zoomDemoState, MIN_ZOOM_LEVEL, MAX_ZOOM_LEVEL, min_def, max_def, abs_lt])

/-- C6 counterexample: at `zoomDemoState` with factor `1 + 10⁻⁶` the clamped
change `10⁻⁶` is below the `10⁻⁵` epsilon, yet `zoom_level` does change
(from 1 to 1.000001) — the call is not a complete no-op on the view state. -/
theorem c6_counterexample :
    |max MIN_ZOOM_LEVEL (min (zoomDemoState.zoomLevel * (1 + 1/1000000)) MAX_ZOOM_LEVEL) -
      zoomDemoState.zoomLevel| < 1e-5 ∧
    (adjust_zoom zoomDemoState (1 + 1/1000000) none none).zoomLevel ≠
      zoomDemoState.zoomLevel := by
  constructor
  · norm_num [zoomDemoState, MIN_ZOOM_LEVEL, MAX_ZOOM_LEVEL, min_def, max_def, abs_lt]
  · norm_num [adjust_zoom, zoomDemoState, MIN_ZOOM_LEVEL, MAX_ZOOM_LEVEL, min_def, max_def,
      abs_lt]

/-- A skipped annotation leaves the mask unchanged: the loop body of
`create_mask_from_annotations` only draws when none of the skip conditions
holds. -/
theorem ann_step_of_skipped (lineDraw : Mask → ℤ × ℤ → ℤ × ℤ → ℕ → ℕ → Mask)
    (polyDraw : Mask → List CoordItem → ℕ → ℕ → Mask)
    (table : List (String × ℕ)) (t : ℕ) (m : Mask) (a : MgAnn)
    (h : ann_skipped table a = true) :
    ann_step lineDraw polyDraw table t m a = m := by
  unfold ann_step
  unfold ann_skipped at h
  simp only [Bool.or_eq_true] at h
  by_cases h1 : annIncomplete a = true
  · rw [if_pos h1]
  · rw [if_neg h1]
    rcases h with (h | h) | h
    · exact absurd h h1
    · rw [Option.isNone_iff_eq_none] at h
      rw [h]
    · cases hl : List.lookup (a.label.getD "") table with
      | none => rfl
      | some class_id =>
        dsimp only
        split
        · next heq =>
            rw [heq] at h
            rcases Bool.or_eq_true_iff.mp h with h4 | h4
            · rw [bne_iff_ne] at h4
              rw [if_neg h4]
            · by_cases hlen : (a.coords.getD []).length = 4
              · rw [if_pos hlen, Option.isNone_iff_eq_none] at *
                rw [h4]
              · rw [if_neg hlen]
        · next heq =>
            rw [heq] at h
            rcases Bool.or_eq_true_iff.mp h with h4 | h4
            · rw [bne_iff_ne] at h4
              rw [if_neg h4]
            · by_cases hlen : (a.coords.getD []).length = 4
              · rw [if_pos hlen, Option.isNone_iff_eq_none] at *
                rw [h4]
              · rw [if_neg hlen]
        · next heq =>
            rw [heq] at h
            rw [if_neg (Nat.not_le.mpr (of_decide_eq_true h))]
        · rfl

/-- Folding a step function over a list equals folding it over the
sublist kept by `p`, provided the step is the identity on dropped
elements. -/
theorem foldl_eq_foldl_filter {α β : Type} (step : β → α → β) (p : α → Bool)
    (hid : ∀ b a, p a = false → step b a = b) :
    ∀ (l : List α) (b : β), l.foldl step b = (l.filter p).foldl step b := by
  intro l
  induction l with
  | nil => intro b; rfl
  | cons a t ih =>
    intro b
    by_cases hp : p a = true
    · simp only [List.foldl_cons, List.filter_cons, hp, if_true]
      exact ih _
    · have hp' : p a = false := Bool.eq_false_iff.mpr hp
      simp only [List.foldl_cons, List.filter_cons, hp', Bool.false_eq_true, if_false,
        hid b a hp']
      exact ih _

/-- C8 (confirmed): with a valid `original_size`, `create_mask_from_annotations`
always returns a raster, and that raster equals the one obtained by
rasterizing only the annotations that are *not* skipped (unknown label,
coordinate count inconsistent with the declared type, incomplete fields,
unknown type): skipped annotations contribute nothing, the remaining ones
are still rasterized, for arbitrary behaviour of the line/polyline
primitives. -/
theorem c8_skipped_anns_contribute_nothing
    (lineDraw : Mask → ℤ × ℤ → ℤ × ℤ → ℕ → ℕ → Mask)
    (polyDraw : Mask → List CoordItem → ℕ → ℕ → Mask)
    (data : MgData) (table : List (String × ℕ)) (t : ℕ) (w h : ℤ)
    (hsize : data.originalSize = some (w, h)) (hw : 0 < w) (hh : 0 < h) :
    create_mask_from_anns lineDraw polyDraw data table t =
      some ((data.anns.filter (fun a => !ann_skipped table a)).foldl
        (ann_step lineDraw polyDraw table t) (fun _ _ => 0), (w, h)) := by
  unfold create_mask_from_anns
  rw [hsize]
  dsimp only
  rw [if_neg (by push_neg; exact ⟨hw, hh⟩)]
  have hfold : data.anns.foldl (ann_step lineDraw polyDraw table t) (fun _ _ => 0) =
      (data.anns.filter (fun a => !ann_skipped table a)).foldl
        (ann_step lineDraw polyDraw table t) (fun _ _ => 0) :=
    foldl_eq_foldl_filter _ _
      (fun b a hp =>
        ann_step_of_skipped lineDraw polyDraw table t b a (by simpa using hp))
      data.anns _
  by_cases he : data.anns = []
  · rw [if_pos he, he]
    rfl
  · rw [if_neg he, hfold]

/-- An input for the C8 witness: one good rectangle, one annotation with an
unknown label, and one rectangle with only 2 coordinate scalars. -/
def c8_data : MgData :=
  ⟨some (100, 100),
   [⟨some "lines", some "rectangle",
      some [CoordItem.num 0, CoordItem.num 0, CoordItem.num 20, CoordItem.num 20]⟩,
    ⟨some "mystery", some "rectangle",
      some [CoordItem.num 0, CoordItem.num 0, CoordItem.num 20, CoordItem.num 20]⟩,
    ⟨some "lines", some "rectangle", some [CoordItem.num 0, CoordItem.num 20]⟩]⟩

/-- Witness for C8 at `c8_data` with trivial drawing primitives. -/
theorem c8_witness :
    create_mask_from_anns (fun m _ _ _ _ => m) (fun m _ _ _ => m) c8_data c1_table 5 =
      some ((c8_data.anns.filter (fun a => !ann_skipped c1_table a)).foldl
        (ann_step (fun m _ _ _ _ => m) (fun m _ _ _ => m) c1_table 5) (fun _ _ => 0),
        (100, 100)) :=
  c8_skipped_anns_contribute_nothing (fun m _ _ _ _ => m) (fun m _ _ _ => m) c8_data c1_table 5
    100 100 rfl (by norm_num) (by norm_num)

/-- The `save_annotations` loop never touches a record key that no
processed entry maps to. -/
theorem save_fold_preserve (fails : String → Bool) (key : String) :
    ∀ (l : List (String × ImageData)) (acc : RecordFS × ℕ),
      (∀ e ∈ l, splitextStem e.1 ≠ key) →
      (l.foldl (save_step fails) acc).1 key = acc.1 key := by
  intro l
  induction l with
  | nil => intro acc _; rfl
  | cons e t ih =>
    intro acc h
    rw [List.foldl_cons, ih _ (fun x hx => h x (List.mem_cons_of_mem _ hx))]
    have hne := h e (List.mem_cons_self _ _)
    unfold save_step
    dsimp only
    split
    · rfl
    · split
      · exact if_neg (fun hk => hne hk.symm)
      · exact if_neg (fun hk => hne hk.symm)

/-- After the `save_annotations` loop, the record of an entry whose stem is
unique is present iff its annotation list is non-empty (and then holds
exactly its data). -/
theorem save_fold_lookup (fails : String → Bool) :
    ∀ (l : List (String × ImageData)) (acc : RecordFS × ℕ) (img : String) (d : ImageData),
      (img, d) ∈ l →
      (∀ e ∈ l, fails e.1 = false) →
      ((l.map (fun e => splitextStem e.1)).Nodup) →
      (l.foldl (save_step fails) acc).1 (splitextStem img) =
        (if d.anns = [] then none else some d) := by
  intro l
  induction l with
  | nil => intro acc img d h _ _; cases h
  | cons e t ih =>
    intro acc img d hmem hf hnd
    rw [List.foldl_cons]
    rcases List.mem_cons.mp hmem with heq | hmem'
    · obtain rfl := heq.symm
      have hnotin : ∀ x ∈ t, splitextStem x.1 ≠ splitextStem img := by
        intro x hx hcontra
        exact (List.nodup_cons.mp hnd).1 (List.mem_map.mpr ⟨x, hx, hcontra⟩)
      rw [save_fold_preserve fails _ t _ hnotin]
      unfold save_step
      dsimp only
      rw [if_neg (by simp [hf (img, d) (List.mem_cons_self _ _)])]
      by_cases hann : d.anns = []
      · rw [if_pos hann, if_pos hann]
        simp [fsRemove]
      · rw [if_neg hann, if_neg hann]
        simp [fsWrite]
    · exact ih _ img d hmem' (fun x hx => hf x (List.mem_cons_of_mem _ hx))
        (List.nodup_cons.mp hnd).2

/-- C2 (confirmed): in a save where the initial guards pass, no per-image
operation fails, and record stems are pairwise distinct, every image with an
entry in the store ends with its record file present and equal to its data
when its annotation list is non-empty, and with its record file absent
(deleted if it previously existed) when its annotation list is empty —
so after deleting the last annotation of an image and saving, that image's
record file no longer exists, and no record file written by a save holds
zero annotations. -/
theorem c2_save_persists_nonempty_deletes_empty
    (fails : String → Bool) (store : Store) (fs0 : RecordFS) (dirty : Bool)
    (img : String) (d : ImageData)
    (hmem : (img, d) ∈ store)
    (hf : ∀ e ∈ store, fails e.1 = false)
    (hnd : (store.map (fun e => splitextStem e.1)).Nodup) :
    (save_anns true true fails store fs0 dirty).fs (splitextStem img) =
      (if d.anns = [] then none else some d) := by
  unfold save_anns
  rw [if_neg (by simp), if_neg (by rintro rfl; exact absurd hmem (List.not_mem_nil _)),
    if_neg (by simp)]
  exact save_fold_lookup fails store (fs0, 0) img d hmem hf hnd

/-- A sample stored annotation. -/
def demoAnn : StoredAnn :=
  ⟨"lines", "rectangle",
   [CoordItem.num 1, CoordItem.num 2, CoordItem.num 12, CoordItem.num 13]⟩

/-- A sample store: `a.png` still has one annotation, `b.png` had its last
annotation deleted. -/
def demoStore : Store :=
  [("a.png", ⟨[demoAnn], (100, 100)⟩), ("b.png", ⟨[], (50, 50)⟩)]

/-- A sample record directory in which `b.json` exists from an earlier
save. -/
def demoFS : RecordFS :=
  fun k => if k = "b" then some ⟨[demoAnn], (50, 50)⟩ else none

/-- Witness for C2: saving `demoStore` over `demoFS` removes the previously
existing record of `b.png`, whose annotation list is now empty. -/
theorem c2_witness :
    (save_anns true true (fun _ => false) demoStore demoFS true).fs (splitextStem "b.png") =
      none :=
  c2_save_persists_nonempty_deletes_empty (fun _ => false) demoStore demoFS true
    "b.png" ⟨[], (50, 50)⟩ (List.mem_cons_of_mem _ (List.mem_cons_self _ _))
    (fun _ _ => rfl) (by decide)

/-- C3 (amended): the dirty flag is set by every mutating operation
(appending a rectangle from the release handler, deleting an annotation,
clearing an image's annotations — whenever the store is changed), and any
save that passes the initial guards (non-empty image list, non-empty store,
record directory creatable) resets it to false, *regardless of how many
per-image writes or deletes failed*. -/
theorem c3_dirty_flag_behaviour :
    (∀ (s : AppView) (store : Store) (dirty : Bool) (img label : String)
        (sz : ℚ × ℚ) (sx sy ex ey : ℚ),
      (on_mouse_release_rect s store dirty img label sz sx sy ex ey).1 ≠ store →
      (on_mouse_release_rect s store dirty img label sz sx sy ex ey).2 = true) ∧
    (∀ (store : Store) (dirty : Bool) (img : String) (idx : ℕ) (confirm : Bool),
      (delete_ann store dirty img idx confirm).1 ≠ store →
      (delete_ann store dirty img idx confirm).2 = true) ∧
    (∀ (store : Store) (dirty : Bool) (img : String) (sz : ℚ × ℚ) (confirm : Bool),
      (clear_current_anns store dirty img sz confirm).1 ≠ store →
      (clear_current_anns store dirty img sz confirm).2 = true) ∧
    (∀ (fails : String → Bool) (store : Store) (fs0 : RecordFS) (dirty : Bool),
      store ≠ [] →
      (save_anns true true fails store fs0 dirty).dirty = false) := by
  refine ⟨?_, ?_, ?_, ?_⟩
  · intro s store dirty img label sz sx sy ex ey hch
    unfold on_mouse_release_rect at *
    by_cases hl : label = ""
    · rw [if_pos hl] at hch
      exact absurd rfl hch
    · rw [if_neg hl] at hch ⊢
      dsimp only at hch ⊢
      split
      · rfl
      · next hcond =>
          rw [if_neg hcond] at hch
          exact absurd rfl hch
  · intro store dirty img idx confirm hch
    unfold delete_ann at *
    cases hs : storeLookup store img with
    | none =>
      rw [hs] at hch
      exact absurd rfl hch
    | some d =>
      rw [hs] at hch
      dsimp only at hch ⊢
      by_cases hidx : idx < d.anns.length
      · rw [if_pos hidx] at hch ⊢
        by_cases hcf : confirm = true
        · rw [if_pos hcf]
        · rw [if_neg hcf] at hch
          exact absurd rfl hch
      · rw [if_neg hidx] at hch
        exact absurd rfl hch
  · intro store dirty img sz confirm hch
    unfold clear_current_anns at *
    by_cases hcf : confirm = true
    · rw [if_pos hcf] at hch ⊢
      cases hs : storeLookup store img <;> rfl
    · rw [if_neg hcf] at hch
      exact absurd rfl hch
  · intro fails store fs0 dirty hne
    unfold save_anns
    rw [if_neg (by simp), if_neg hne, if_neg (by simp)]

/-- Witness for C3: a save in which both entries fail still clears the
dirty flag (fourth conjunct, applied at `demoStore`). -/
theorem c3_witness :
    (save_anns true true (fun _ => true) demoStore demoFS true).dirty = false :=
  c3_dirty_flag_behaviour.2.2.2 (fun _ => true) demoStore demoFS true (by simp [demoStore])

/-- C3 counterexample: a save in which every per-image operation raises
(`error_count = 2 > 0`) still sets `has_unsaved_changes = False`; the claim
says such a save must leave the flag set. -/
theorem c3_counterexample :
    (save_anns true true (fun _ => true) demoStore demoFS true).errors = 2 ∧
    (save_anns true true (fun _ => true) demoStore demoFS true).dirty = false := by
  exact ⟨rfl, rfl⟩

/-- C10 (confirmed): a rectangle release gesture either appends nothing
(leaving store and flag unchanged) or appends exactly one rectangle
annotation whose stored coordinates are `[min x, min y, max x, max y]` —
normalized, with extent at least 1 original-space pixel on each axis. -/
theorem c10_released_rectangles_are_normalized (s : AppView) (store : Store) (dirty : Bool)
    (img_name label : String) (orig_size : ℚ × ℚ) (sx sy ex ey : ℚ) :
    (on_mouse_release_rect s store dirty img_name label orig_size sx sy ex ey =
      (store, dirty)) ∨
    (∃ a b c d : ℚ,
      a ≤ c ∧ b ≤ d ∧ 1 ≤ c - a ∧ 1 ≤ d - b ∧
      on_mouse_release_rect s store dirty img_name label orig_size sx sy ex ey =
        (storeSet store img_name
          ⟨(((storeLookup store img_name).getD ⟨[], orig_size⟩).anns) ++
            [⟨label, "rectangle",
              [CoordItem.num a, CoordItem.num b, CoordItem.num c, CoordItem.num d]⟩],
           ((storeLookup store img_name).getD ⟨[], orig_size⟩).originalSize⟩, true)) := by
  unfold on_mouse_release_rect
  by_cases hl : label = ""
  · left
    rw [if_pos hl]
  · rw [if_neg hl]
    dsimp only
    by_cases hc : 1 ≤ |(view_to_original_coords s sx sy).1 - (view_to_original_coords s ex ey).1| ∧
        1 ≤ |(view_to_original_coords s sx sy).2 - (view_to_original_coords s ex ey).2|
    · right
      refine ⟨min (view_to_original_coords s sx sy).1 (view_to_original_coords s ex ey).1,
        min (view_to_original_coords s sx sy).2 (view_to_original_coords s ex ey).2,
        max (view_to_original_coords s sx sy).1 (view_to_original_coords s ex ey).1,
        max (view_to_original_coords s sx sy).2 (view_to_original_coords s ex ey).2,
        min_le_max, min_le_max, ?_, ?_, ?_⟩
      · rw [max_sub_min_eq_abs, abs_sub_comm]
        exact hc.1
      · rw [max_sub_min_eq_abs, abs_sub_comm]
        exact hc.2
      · rw [if_pos hc]
        unfold rectAnn
        cases hs : storeLookup store img_name <;> simp [hs, Option.getD]
    · left
      rw [if_neg hc]

end SegToolkit
